import Mathlib

/-!
Shallow embedding of the bulk-registration-upload validation engine of
`website/registrations/utils.py` (classes `BulkRegistrationUpload`, `Row`,
`Cell`, `RegistrationResponseField`, `MetadataField`, `ContributorField`,
`LicenseField`, `CategoryField`, `SubjectsField`, `InstitutionsField`,
`ProjectIDField`).

Modelling conventions:
- Python strings are Lean `String`; helper functions `pyStrip`, `pySplitSemi`
  and `pyLower` mirror `str.strip()`, `str.split(';')` and `str.lower()`
  (ASCII lowercasing; all header and license names in play are ASCII).
- Mutable objects are modelled by explicit state passing: every validator
  returns its updated field state, the list of error records it logged (the
  `log_error` callback appends to the orchestrator's list) and an
  `Except PyError` describing either normal return or a propagating Python
  exception.  Logged errors persist even when an exception propagates, as
  they do in the source.
- The Django ORM lookups (`NodeLicense.objects.get(name__iexact=..)`,
  `Subject.objects.filter(text__in=..)`, `Institution.objects.filter`,
  `AbstractNode.objects.get`, `RegistrationProvider.load`,
  `provider.schemas.get(_id=..)`, `settings.NODE_CATEGORY_MAP`) are modelled
  by an explicit `Env` record holding the external data.
- `csv.DictReader` rows are modelled as the ordered zip of the (assumed
  distinct) fieldnames with the row's values, which is exactly the dict the
  reader produces for distinct headers.
-/

/-- A `missing`/`invalid` pair as passed to `log_error` by a validator
(`log_error(missing=True)` / `log_error(invalid=True)`); header, column and
row indices are bound by `functools.partial` higher up and attached in
`Cell`/`Row`/`BulkRegistrationUpload`. -/
structure LogEntry where
  missing : Bool := false
  invalid : Bool := false
deriving DecidableEq, Repr

/-- One element of `BulkRegistrationUpload.errors`, as built by
`log_error` (source lines 75-83). -/
structure ErrorRecord where
  header : String
  column_index : Nat
  row_index : Nat
  missing : Bool
  invalid : Bool
deriving DecidableEq, Repr

/-- Python exceptions that can escape the modelled code.  `attributeError`
carries the name of the missing attribute, `keyError` the missing key,
`nameError` the undefined variable name, `notFound` the DRF detail string. -/
inductive PyError where
  | nameError (varName : String)
  | attributeError (attrName : String)
  | keyError (key : String)
  | notFound (detail : String)
  | validationError (msg : String)
  | stopIteration
deriving DecidableEq, Repr

/-- One parsed contributor, the dict
`{'full_name': full_name, 'email': email}` built by
`ContributorField._validate`. -/
structure Contributor where
  full_name : String
  email : String
deriving DecidableEq, Repr

/-- The JSON-like parsed values the validators construct.  The source builds
Python strings, lists of strings, lists of contributor dicts, and the two
license dict shapes `{'name': ..}` and
`{'name': .., 'required_field': {'year': .., 'copyright_holders': [..]}}`;
each constructor models one of those shapes. -/
inductive ParsedValue where
  | str (s : String)
  | strList (l : List String)
  | contributors (l : List Contributor)
  | licenseSimple (licName : String)
  | licenseFull (licName : String) (year : String) (copyright_holders : List String)
deriving DecidableEq, Repr

/-- Characters stripped by Python `str.strip()`. -/
def isPySpace (c : Char) : Bool :=
  c = ' ' || c = '\t' || c = '\n' || c = '\x0d' || c = '\x0b' || c = '\x0c'

/-- `str.strip()` on a character list. -/
def pyStripList (l : List Char) : List Char :=
  ((l.dropWhile isPySpace).reverse.dropWhile isPySpace).reverse

/-- Python `str.strip()`. -/
def pyStrip (s : String) : String := ⟨pyStripList s.data⟩

/-- `str.split(';')` on a character list: split at every separator, keeping
empty pieces (`''.split(';') == ['']`). -/
def pySplitList (sep : Char) : List Char → List (List Char)
  | [] => [[]]
  | c :: cs =>
    if c = sep then [] :: pySplitList sep cs
    else
      match pySplitList sep cs with
      | [] => [[c]]
      | piece :: rest => (c :: piece) :: rest

/-- Python `value.split(';')`. -/
def pySplitSemi (s : String) : List String :=
  (pySplitList ';' s.data).map (fun l => ⟨l⟩)

/-- Python `value.split(',')`. -/
def pySplitComma (s : String) : List String :=
  (pySplitList ',' s.data).map (fun l => ⟨l⟩)

/-- ASCII `str.lower()` on one character. -/
def pyLowerChar (c : Char) : Char :=
  if 'A' ≤ c && c ≤ 'Z' then Char.ofNat (c.toNat + 32) else c

/-- ASCII `str.lower()`. -/
def pyLower (s : String) : String := ⟨s.data.map pyLowerChar⟩

example : pyStrip "  a b " = "a b" := by decide
example : pySplitSemi "a; b;c" = ["a", " b", "c"] := by decide
example : pySplitSemi "" = [""] := by decide
example : pyLower "CC-BY Title" = "cc-by title" := by decide

/-- A validation-rule dict as stored in `METADATA_FIELDS` or produced by
`get_questions_validations`; `none` models an absent dict key, read back with
`dict.get(key, default)` at field construction. -/
structure Validations where
  required : Option Bool := none
  format : Option String := none
  qtype : Option String := none
  options : Option (List String) := none
deriving DecidableEq, Repr

/-- The hard-coded `METADATA_FIELDS` table (source lines 15-27), as an
ordered key/dict list (Python dicts preserve insertion order). -/
def METADATA_FIELDS : List (String × Validations) :=
  [("title", { format := some "string", required := some true }),
   ("description", { format := some "string", required := some true }),
   ("admin", { format := some "list", required := some true }),
   ("read-write", { format := some "list" }),
   ("read-only", { format := some "list" }),
   ("bibliographic contributors", { format := some "list" }),
   ("category", { format := some "string" }),
   ("affiliated institutions", { format := some "list" }),
   ("license", { format := some "object", required := some true }),
   ("subjects", { format := some "list", required := some true }),
   ("tags", { format := some "list" }),
   ("project guid", { format := some "string" }),
   ("external id", { format := some "string" })]

/-- `CONTRIBUTOR_METADATA_FIELDS` (source line 28). -/
def CONTRIBUTOR_METADATA_FIELDS : List String :=
  ["admin", "read-write", "read-only", "bibliographic contributors"]

/-- Python regex `\w` on ASCII input: letters, digits, underscore. -/
def isWordChar (c : Char) : Bool := c.isAlphanum || c = '_'

/-- Membership in the character class `[\w ]` of the license regexes. -/
def isWordOrSpace (c : Char) : Bool := isWordChar c || c = ' '

/-- `LicenseField.no_required_fields_regex.match(value)`: the pattern
`(?P<name>[\w ]+)` anchored at the start matches iff the value starts with a
`[\w ]` character, and the `name` group is the maximal `[\w ]` prefix. -/
def noRequiredFieldsMatch (s : String) : Option String :=
  let licName : List Char := s.data.takeWhile isWordOrSpace
  if licName.isEmpty then none else some ⟨licName⟩

/-- Membership in the class `[\w -,]` of `with_required_fields_regex`:
`\w` plus the character range from space (0x20) to comma (0x2C). -/
def isHolderChar (c : Char) : Bool := isWordChar c || (' ' ≤ c && c ≤ ',')

/-- `LicenseField.with_required_fields_regex.match(value)` for the pattern
`(?P<name>[\w ]+);(?P<year>[ ][1-3][0-9]{3});(?P<copyright_holders>[\w -,]+)`.
Since `;` is not in `[\w ]`, the `name` group can only be the maximal `[\w ]`
prefix; the `year` group is exactly one space, one digit `1`-`3` and three
digits (the leading space is inside the capture group); the holders group is
a maximal nonempty run of `[\w -,]` characters; `re.match` permits trailing
unmatched text. -/
def withRequiredFieldsMatch (s : String) : Option (String × String × List Char) :=
  let licName : List Char := s.data.takeWhile isWordOrSpace
  if licName.isEmpty then none else
  match s.data.drop licName.length with
  | ';' :: ' ' :: d1 :: d2 :: d3 :: d4 :: ';' :: rest =>
    if ('1' ≤ d1 && d1 ≤ '3') && d2.isDigit && d3.isDigit && d4.isDigit then
      let holders := rest.takeWhile isHolderChar
      if holders.isEmpty then none
      else some (⟨licName⟩, ⟨[' ', d1, d2, d3, d4]⟩, holders)
    else none
  | _ => none

/-- Membership in the class `[\w -]` of `ContributorField.contributor_regex`. -/
def isContribNameChar (c : Char) : Bool := isWordChar c || c = ' ' || c = '-'

/-- `ContributorField.contributor_regex.match(token)` for
`(?P<full_name>[\w -]+)<(?P<email>.*?)>`: maximal `[\w -]` prefix (nonempty),
a literal `<`, then the lazy `.*?` makes `email` everything up to the first
`>` (and `.` does not match a newline). -/
def contributorMatch (s : String) : Option (String × String) :=
  let fullName : List Char := s.data.takeWhile isContribNameChar
  if fullName.isEmpty then none else
  match s.data.drop fullName.length with
  | '<' :: rest =>
    let email := rest.takeWhile (fun c => c ≠ '>' && c ≠ '\n')
    if (rest.drop email.length).head? = some '>' then some (⟨fullName⟩, ⟨email⟩)
    else none
  | _ => none

example : noRequiredFieldsMatch "CC-BY; 2020; Jane" = some "CC" := by decide
example : noRequiredFieldsMatch "MIT" = some "MIT" := by decide
example : withRequiredFieldsMatch "CCBY; 2020; Jane Doe, John Roe" =
    some ("CCBY", " 2020", " Jane Doe, John Roe".data) := by decide
example : withRequiredFieldsMatch "CC-BY; 2020; Jane Doe, John Roe" = none := by decide
example : contributorMatch "Jane Doe<jane@example.com>" =
    some ("Jane Doe", "jane@example.com") := by decide

/-- A `NodeLicense` record: `name` plus its `properties` list (nonempty
properties means the license requires year/copyright-holder fields). -/
structure NodeLicense where
  name : String
  properties : List String
deriving DecidableEq, Repr

/-- A sub-question from a question's `properties` list; its rule keys are
read exactly like a top-level question's, its id contributes to the nested
qid `question['qid'] + nested_question['id']`. -/
structure SubQuestion where
  id : String
  validations : Validations
deriving DecidableEq, Repr

/-- A schema question: `qid`, the optional rule keys (`required`, `format`,
`type`, `options`) and the optional nested `properties` list. -/
structure Question where
  qid : String
  validations : Validations
  properties : Option (List SubQuestion) := none
deriving DecidableEq, Repr

/-- A `RegistrationSchema` document: `_id` and `schema['pages']`, each page
holding its `questions` list. -/
structure RegistrationSchemaDoc where
  docId : String
  pages : List (List Question)
deriving DecidableEq, Repr

/-- A `RegistrationProvider`: its id and its `schemas` related manager. -/
structure Provider where
  providerId : String
  schemas : List RegistrationSchemaDoc
deriving DecidableEq, Repr

/-- The external data sources consulted by the validators and the
orchestrator: license records, the subject vocabulary (`Subject.objects`
texts in database order), institution names, `settings.NODE_CATEGORY_MAP`,
guids of existing non-deleted `osf.node` records, and the registration
providers. -/
structure Env where
  licenses : List NodeLicense
  subjectsVocab : List String
  institutionsVocab : List String
  categoryMap : List (String × String)
  projects : List String
  providers : List Provider

/-- Attribute state shared by `MetadataField` and its subclasses
(`__init__`, source lines 233-239): `format`, `required`, the stripped
`value`, and the memo slot `_parsed_value`. -/
structure MetadataAttrs where
  format : String
  required : Bool
  value : String
  parsedValue : Option ParsedValue
deriving DecidableEq, Repr

/-- Attribute state of `RegistrationResponseField` (`__init__`, source lines
194-202): `qtype` models `self.type`; `format` keeps the raw
`validations.get('format')` which defaults to `None`. -/
structure ResponseAttrs where
  required : Bool
  qtype : String
  format : Option String
  options : List String
  value : String
  parsedValue : Option ParsedValue
deriving DecidableEq, Repr

/-- A field object, tagged by its concrete validator class as chosen by
`Cell.field_instance_for`. -/
inductive FieldObj where
  | metadataGeneric (a : MetadataAttrs)
  | contributor (a : MetadataAttrs)
  | license (a : MetadataAttrs)
  | category (a : MetadataAttrs)
  | subjects (a : MetadataAttrs)
  | institutions (a : MetadataAttrs)
  | projectID (a : MetadataAttrs)
  | response (a : ResponseAttrs)
deriving DecidableEq, Repr

/-- `MetadataField.__init__`: defaults `format='string'`, `required=False`,
value stripped, `_parsed_value = None`. -/
def MetadataField.mkAttrs (validations : Validations) (value : String) : MetadataAttrs :=
  { format := validations.format.getD "string",
    required := validations.required.getD false,
    value := pyStrip value,
    parsedValue := none }

/-- `RegistrationResponseField.__init__`: defaults `required=False`,
`type='string'`, `format=None`, `options=[]`. -/
def RegistrationResponseField.mkAttrs (validations : Validations) (value : String) :
    ResponseAttrs :=
  { required := validations.required.getD false,
    qtype := validations.qtype.getD "string",
    format := validations.format,
    options := validations.options.getD [],
    value := pyStrip value,
    parsedValue := none }

/-- `Cell.field_instance_for` (source lines 171-191): dispatch on the
lowercased header name. -/
def field_instance_for (name : String) (value : String) (validations : Validations) :
    FieldObj :=
  if METADATA_FIELDS.any (fun p => p.1 = name) then
    if name ∈ CONTRIBUTOR_METADATA_FIELDS then
      .contributor (MetadataField.mkAttrs validations value)
    else if name = "license" then .license (MetadataField.mkAttrs validations value)
    else if name = "category" then .category (MetadataField.mkAttrs validations value)
    else if name = "subjects" then .subjects (MetadataField.mkAttrs validations value)
    else if name = "affiliated institutions" then
      .institutions (MetadataField.mkAttrs validations value)
    else if name = "project guid" then .projectID (MetadataField.mkAttrs validations value)
    else .metadataGeneric (MetadataField.mkAttrs validations value)
  else .response (RegistrationResponseField.mkAttrs validations value)

/-- `MetadataField._validate` (source lines 241-250). -/
def MetadataField.validateAttrs (a : MetadataAttrs) : MetadataAttrs × List LogEntry :=
  if a.required ∧ a.value = "" then (a, [{ missing := true }])
  else if a.format = "string" then ({ a with parsedValue := some (.str a.value) }, [])
  else if a.format = "list" then
    ({ a with parsedValue := some (.strList ((pySplitSemi a.value).map pyStrip)) }, [])
  else ({ a with parsedValue := none }, [])

/-- `ContributorField._validate` (source lines 260-278): non-matching tokens
are silently dropped; the `try/except AttributeError` around `match.group`
is dead code because the groups of a successful match always exist. -/
def ContributorField.validateAttrs (a : MetadataAttrs) : MetadataAttrs × List LogEntry :=
  if a.required ∧ a.value = "" then (a, [{ missing := true }])
  else
    let parsed_contributor_list := (pySplitSemi a.value).map pyStrip
    let parsed := parsed_contributor_list.filterMap (fun contrib =>
      (contributorMatch (pyStrip contrib)).map
        (fun m => { full_name := m.1, email := m.2 : Contributor }))
    ({ a with parsedValue := some (.contributors parsed) }, [])

/-- `LicenseField._validate` (source lines 285-313).  The
`NodeLicense.objects.get(name__iexact=..)` lookup is modelled as a find over
the license table comparing lowercased names (license names are assumed
distinct up to case, so `MultipleObjectsReturned` cannot occur). -/
def LicenseField.validateAttrs (env : Env) (a : MetadataAttrs) :
    MetadataAttrs × List LogEntry :=
  if a.required ∧ a.value = "" then (a, [{ missing := true }])
  else
    match noRequiredFieldsMatch a.value with
    | none => (a, [{ invalid := true }])
    | some node_license_name =>
      match env.licenses.find? (fun l => pyLower l.name = pyLower node_license_name) with
      | none => (a, [{ invalid := true }])
      | some node_license =>
        if node_license.properties ≠ [] then
          match withRequiredFieldsMatch a.value with
          | some m =>
            ({ a with parsedValue := some (.licenseFull m.1 m.2.1
                 ((pySplitComma ⟨m.2.2⟩).map pyStrip)) }, [])
          | none => ({ a with parsedValue := none }, [])
        else ({ a with parsedValue := some (.licenseSimple node_license_name) }, [])

/-- `CategoryField._validate` (source lines 316-320):
`settings.NODE_CATEGORY_MAP[self.value]`, `KeyError` caught as `invalid`. -/
def CategoryField.validateAttrs (env : Env) (a : MetadataAttrs) :
    MetadataAttrs × List LogEntry :=
  match env.categoryMap.find? (fun p => p.1 = a.value) with
  | some p => ({ a with parsedValue := some (.str p.2) }, [])
  | none => (a, [{ invalid := true }])

/-- `SubjectsField._validate` (source lines 323-330): `valid_subjects` is
the database-ordered list of vocabulary texts appearing among the tokens;
`list(set(subjects) - set(valid_subjects))` is nonempty exactly when some
token is unmatched, which the filter below reproduces. -/
def SubjectsField.validateAttrs (env : Env) (a : MetadataAttrs) :
    MetadataAttrs × List LogEntry :=
  let subjects := (pySplitSemi a.value).map pyStrip
  let valid_subjects := env.subjectsVocab.filter (fun t => t ∈ subjects)
  let invalid_subjects := subjects.filter (fun t => t ∉ valid_subjects)
  if invalid_subjects.length ≠ 0 then (a, [{ invalid := true }])
  else ({ a with parsedValue := some (.strList valid_subjects) }, [])

/-- `InstitutionsField._validate` (source lines 333-340), same algorithm as
`SubjectsField` against the institution-name table. -/
def InstitutionsField.validateAttrs (env : Env) (a : MetadataAttrs) :
    MetadataAttrs × List LogEntry :=
  let institutions := (pySplitSemi a.value).map pyStrip
  let valid_institutions := env.institutionsVocab.filter (fun t => t ∈ institutions)
  let invalid_institutions := institutions.filter (fun t => t ∉ valid_institutions)
  if invalid_institutions.length ≠ 0 then (a, [{ invalid := true }])
  else ({ a with parsedValue := some (.strList valid_institutions) }, [])

/-- `ProjectIDField._validate` (source lines 343-349):
`AbstractNode.objects.get(guids___id=value, is_deleted=False, type='osf.node')`,
`DoesNotExist` caught as `invalid`; `env.projects` holds the guids of the
records satisfying those filters. -/
def ProjectIDField.validateAttrs (env : Env) (a : MetadataAttrs) :
    MetadataAttrs × List LogEntry :=
  if a.value ∈ env.projects then ({ a with parsedValue := some (.str a.value) }, [])
  else (a, [{ invalid := true }])

/-- The `for choice in choices` loop of the multiselect branch of
`RegistrationResponseField._validate` (source lines 220-224): a choice not
in `options` logs `invalid` and the loop continues; a choice in `options`
executes `parse_value.append(choice)`, which raises `NameError` because the
local variable is spelled `parsed_value` everywhere else and `parse_value`
is never defined. -/
def multiselectChoicesLoop (options : List String) :
    List String → List LogEntry → List LogEntry × Except PyError Unit
  | [], logs => (logs, .ok ())
  | choice :: rest, logs =>
    if choice ∈ options then (logs, .error (.nameError "parse_value"))
    else multiselectChoicesLoop options rest (logs ++ [{ invalid := true }])

/-- `RegistrationResponseField._validate` (source lines 204-225).  On a
propagating exception the assignment `self._parsed_value = parsed_value` on
line 225 is never reached, so the attrs are returned unchanged. -/
def RegistrationResponseField.validateAttrs (a : ResponseAttrs) :
    ResponseAttrs × List LogEntry × Except PyError Unit :=
  if a.required ∧ a.value = "" then (a, [{ missing := true }], .ok ())
  else if a.qtype = "string" then
    ({ a with parsedValue := some (.str a.value) }, [], .ok ())
  else if a.qtype = "choose" ∧
      (a.format = some "singleselect" ∨ a.format = some "multiselect") then
    if a.format = some "singleselect" then
      if a.value ∈ a.options then ({ a with parsedValue := some (.str a.value) }, [], .ok ())
      else ({ a with parsedValue := none }, [{ invalid := true }], .ok ())
    else
      let choices := (pySplitSemi a.value).map pyStrip
      match multiselectChoicesLoop a.options choices [] with
      | (logs, .ok ()) => ({ a with parsedValue := some (.strList []) }, logs, .ok ())
      | (logs, .error e) => (a, logs, .error e)
  else ({ a with parsedValue := none }, [], .ok ())

/-- The `_parsed_value` memo slot of any field object. -/
def FieldObj.parsedValueOf : FieldObj → Option ParsedValue
  | .metadataGeneric a => a.parsedValue
  | .contributor a => a.parsedValue
  | .license a => a.parsedValue
  | .category a => a.parsedValue
  | .subjects a => a.parsedValue
  | .institutions a => a.parsedValue
  | .projectID a => a.parsedValue
  | .response a => a.parsedValue

/-- `self._validate()` dispatched on the concrete field class.  Returns the
updated field state, the error entries logged during the call, and the
normal/exceptional outcome. -/
def FieldObj.validateField (env : Env) : FieldObj → FieldObj × List LogEntry × Except PyError Unit
  | .metadataGeneric a =>
    let r := MetadataField.validateAttrs a; (.metadataGeneric r.1, r.2, .ok ())
  | .contributor a =>
    let r := ContributorField.validateAttrs a; (.contributor r.1, r.2, .ok ())
  | .license a =>
    let r := LicenseField.validateAttrs env a; (.license r.1, r.2, .ok ())
  | .category a =>
    let r := CategoryField.validateAttrs env a; (.category r.1, r.2, .ok ())
  | .subjects a =>
    let r := SubjectsField.validateAttrs env a; (.subjects r.1, r.2, .ok ())
  | .institutions a =>
    let r := InstitutionsField.validateAttrs env a; (.institutions r.1, r.2, .ok ())
  | .projectID a =>
    let r := ProjectIDField.validateAttrs env a; (.projectID r.1, r.2, .ok ())
  | .response a =>
    let r := RegistrationResponseField.validateAttrs a; (.response r.1, r.2.1, r.2.2)

/-- `parse` (source lines 227-230 and 252-255, identical in both classes):
run `_validate` only when `_parsed_value is None`, then return
`_parsed_value` or `''`.  The result carries the post-call field state and
the entries logged by the call. -/
def FieldObj.parse (env : Env) (f : FieldObj) : FieldObj × List LogEntry × Except PyError ParsedValue :=
  match FieldObj.parsedValueOf f with
  | some v => (f, [], .ok v)
  | none =>
    let r := FieldObj.validateField env f
    match r.2.2 with
    | .error e => (r.1, r.2.1, .error e)
    | .ok _ => (r.1, r.2.1, .ok ((FieldObj.parsedValueOf r.1).getD (.str "")))

/-- Python-dict insertion on an ordered association list: an existing key
keeps its position and gets the new value, a new key is appended. -/
def dictInsert (d : List (String × Validations)) (k : String) (v : Validations) :
    List (String × Validations) :=
  if d.any (fun p => p.1 = k) then d.map (fun p => if p.1 = k then (k, v) else p)
  else d ++ [(k, v)]

/-- Python-dict key lookup on an ordered association list. -/
def dictGet (d : List (String × Validations)) (k : String) : Option Validations :=
  (d.find? (fun p => p.1 = k)).map Prod.snd

/-- The `get_question_validations` lambda (source lines 62-65): read the
rule keys with their defaults, producing a dict in which every key is
present. -/
def get_question_validations (v : Validations) : Validations :=
  { required := some (v.required.getD false),
    format := some (v.format.getD ""),
    qtype := some (v.qtype.getD "string"),
    options := some (v.options.getD []) }

/-- `BulkRegistrationUpload.get_questions_validations` (source lines 59-73):
walk pages and questions, inserting `qid → rule` and, for nested
sub-questions, `qid + nested_id → rule`. -/
def get_questions_validations (s : RegistrationSchemaDoc) : List (String × Validations) :=
  s.pages.foldl (fun acc page =>
    page.foldl (fun acc q =>
      let acc := dictInsert acc q.qid (get_question_validations q.validations)
      match q.properties with
      | some nested =>
        nested.foldl
          (fun acc nq =>
            dictInsert acc (q.qid ++ nq.id) (get_question_validations nq.validations)) acc
      | none => acc) acc) []

/-- `self.validations = {**self.schema_questions, **METADATA_FIELDS}`
(source line 52): start from the schema questions and overlay the metadata
rules, which win on collision. -/
def mergedValidations (s : RegistrationSchemaDoc) : List (String × Validations) :=
  METADATA_FIELDS.foldl (fun acc kv => dictInsert acc kv.1 kv.2) (get_questions_validations s)

/-- A `Cell` (source lines 145-157): lowercased header, raw value, the field
object, and the `column_index` bound into its `log_error` partial. -/
structure CellObj where
  header : String
  value : String
  fieldObj : FieldObj
  columnIndex : Nat
deriving DecidableEq, Repr

/-- A `Row` (source lines 103-109): its cells plus the `row_index`
(`reader.line_num`, the 1-based source line number) bound into its
`log_error` partial. -/
structure RowObj where
  cells : List CellObj
  rowIndex : Nat
deriving DecidableEq, Repr

/-- The input document as seen through `csv.DictReader`: the header line's
fieldnames (original case, assumed distinct) and the data lines, each a list
of values aligned with the fieldnames. -/
structure CsvDoc where
  fieldnames : List String
  rows : List (List String)
deriving DecidableEq, Repr

/-- The state of a constructed `BulkRegistrationUpload` (source lines
35-57). -/
structure Upload where
  headers : List String
  schemaId : String
  providerId : String
  registrationSchema : RegistrationSchemaDoc
  validations : List (String × Validations)
  errors : List ErrorRecord
  rows : List RowObj
deriving DecidableEq, Repr

/-- The cell-building comprehension of `Row.__init__` (source lines
106-109): for each `(header, value)` item of the row dict in order,
`validations[header.lower()]` is looked up — a `KeyError` for a header
absent from the merged validations — and a `Cell` is built.  The first
failing lookup aborts construction with that `KeyError`, as in Python. -/
def buildCells (validations : List (String × Validations)) :
    List (String × String) → Nat → Except PyError (List CellObj)
  | [], _ => .ok []
  | (header, value) :: rest, columnIndex =>
    match dictGet validations (pyLower header) with
    | none => .error (.keyError (pyLower header))
    | some v =>
      match buildCells validations rest (columnIndex + 1) with
      | .error e => .error e
      | .ok cells =>
        .ok ({ header := pyLower header, value := value,
               fieldObj := field_instance_for (pyLower header) value v,
               columnIndex := columnIndex } :: cells)

/-- Build the `Row` objects for the data lines (source lines 54-57): the row
dict of a data line is the ordered zip of the fieldnames with its values;
the first registration row sits on source line 3 (`reader.line_num` after
the header line and the schema-id line). -/
def buildRows (validations : List (String × Validations)) (fieldnames : List String) :
    List (List String) → Nat → Except PyError (List RowObj)
  | [], _ => .ok []
  | r :: rest, lineNum =>
    match buildCells validations (fieldnames.zip r) 0 with
    | .error e => .error e
    | .ok cells =>
      match buildRows validations fieldnames rest (lineNum + 1) with
      | .error e => .error e
      | .ok rows => .ok ({ cells := cells, rowIndex := lineNum } :: rows)

/-- `RegistrationProvider.load(provider_id)` and
`provider.schemas.get(_id=schema_id)`, modelled from the spec interface
`(provider_id, schema_id) → schema document | NotFound`: the provider lookup
raises `RegistrationProvider.DoesNotExist` when the id is unknown (this is
the exception `__init__` handles), and the schema lookup raises
`RegistrationSchema.DoesNotExist` when the provider has no schema with that
id.  Here the two `DoesNotExist` outcomes are returned as tags for
`Upload.init` to translate exactly as the source's `except` clauses do. -/
inductive SchemaLookup where
  | found (s : RegistrationSchemaDoc)
  | providerDoesNotExist
  | schemaDoesNotExist
deriving DecidableEq, Repr

/-- The schema/provider resolution inside `BulkRegistrationUpload.__init__`
(source lines 44-46). -/
def lookupSchema (env : Env) (providerId schemaId : String) : SchemaLookup :=
  match env.providers.find? (fun p => p.providerId = providerId) with
  | none => .providerDoesNotExist
  | some provider =>
    match provider.schemas.find? (fun s => s.docId = schemaId) with
    | none => .schemaDoesNotExist
    | some s => .found s

/-- `BulkRegistrationUpload.__init__` (source lines 35-57).  Notable
faithfully-modelled details:
- the schema id is the first data line's value for `fieldnames[0]`
  (`next(self.reader)` raising `StopIteration` on an empty body);
- when the schema id is falsy the whole lookup block is skipped, so
  `self.registration_schema` is never assigned and line 51 raises
  `AttributeError` for the missing `registration_schema` attribute;
- on `RegistrationSchema.DoesNotExist` a `NotFound` with formatted detail is
  raised (line 48), but on `RegistrationProvider.DoesNotExist` line 50 reads
  `raise NotFound(detail=..).format(provider_id)`: the `.format` call is
  applied to the `NotFound` exception object, which has no such attribute,
  so what actually propagates is an `AttributeError` for `format` and the
  detail string is never formatted. -/
def Upload.init (env : Env) (doc : CsvDoc) (providerId : String) : Except PyError Upload :=
  let headers := doc.fieldnames.map pyLower
  match doc.rows with
  | [] => .error .stopIteration
  | schemaIdRow :: dataRows =>
    let schemaId := schemaIdRow.headD ""
    let schemaResult : Except PyError RegistrationSchemaDoc :=
      if schemaId ≠ "" then
        match lookupSchema env providerId schemaId with
        | .found s => .ok s
        | .schemaDoesNotExist =>
          .error (.notFound ("Schema with id \x22" ++ schemaId ++ "\x22 was not found"))
        | .providerDoesNotExist => .error (.attributeError "format")
      else .error (.attributeError "registration_schema")
    match schemaResult with
    | .error e => .error e
    | .ok schema =>
      let validations := mergedValidations schema
      match buildRows validations doc.fieldnames dataRows 3 with
      | .error e => .error e
      | .ok rows =>
        .ok { headers := headers, schemaId := schemaId, providerId := providerId,
              registrationSchema := schema, validations := validations,
              errors := [], rows := rows }

/-- `BulkRegistrationUpload.validate_csv_header_list` (source lines 85-90):
`set(expected) - set(actual)` is modelled as the expected keys not among the
actual headers, in first-occurrence order (Python's set iteration order is
arbitrary; only emptiness is order-independent). -/
def validate_csv_header_list (u : Upload) : Except PyError Unit :=
  let diff := (u.validations.map Prod.fst).filter (fun h => h ∉ u.headers)
  if diff.length ≠ 0 then
    .error (.validationError ("Invalid csv headers: " ++ String.intercalate "," diff))
  else .ok ()

/-- `log_error` (source lines 75-83) with all its partial application
arguments collected: build the `ErrorRecord` appended to
`BulkRegistrationUpload.errors`. -/
def mkErrorRecord (c : CellObj) (rowIndex : Nat) (l : LogEntry) : ErrorRecord :=
  { header := c.header, column_index := c.columnIndex, row_index := rowIndex,
    missing := l.missing, invalid := l.invalid }

/-- `Row.validate` (source lines 141-143): `cell.validate()` calls
`self.field.parse()` discarding the value; errors logged so far persist when
an exception propagates out of a cell. -/
def cellsValidate (env : Env) (rowIndex : Nat) :
    List CellObj → List ErrorRecord → List CellObj × List ErrorRecord × Except PyError Unit
  | [], errs => ([], errs, .ok ())
  | c :: cs, errs =>
    let r := FieldObj.parse env c.fieldObj
    let errs2 := errs ++ (r.2.1.map (mkErrorRecord c rowIndex))
    match r.2.2 with
    | .error e => ({ c with fieldObj := r.1 } :: cs, errs2, .error e)
    | .ok _ =>
      let rec2 := cellsValidate env rowIndex cs errs2
      ({ c with fieldObj := r.1 } :: rec2.1, rec2.2.1, rec2.2.2)

/-- The row loop of `BulkRegistrationUpload.validate` (source lines
100-101). -/
def rowsValidate (env : Env) :
    List RowObj → List ErrorRecord → List RowObj × List ErrorRecord × Except PyError Unit
  | [], errs => ([], errs, .ok ())
  | r :: rs, errs =>
    let res := cellsValidate env r.rowIndex r.cells errs
    match res.2.2 with
    | .error e => ({ r with cells := res.1 } :: rs, res.2.1, .error e)
    | .ok _ =>
      let rest := rowsValidate env rs res.2.1
      ({ r with cells := res.1 } :: rest.1, rest.2.1, rest.2.2)

/-- `BulkRegistrationUpload.validate` (source lines 98-101): the header-list
check runs first and a `ValidationError` aborts before any row or cell is
touched; otherwise every row validates, accumulating error records. -/
def Upload.validate (env : Env) (u : Upload) : Upload × Except PyError Unit :=
  match validate_csv_header_list u with
  | .error e => (u, .error e)
  | .ok _ =>
    let res := rowsValidate env u.rows u.errors
    ({ u with rows := res.1, errors := res.2.1 }, res.2.2)

/-- `BulkRegistrationUpload.is_valid` (source lines 31-33). -/
def Upload.is_valid (u : Upload) : Bool := u.errors.length = 0

/-- Is the outcome a propagating `KeyError`? -/
def isKeyErrorE {α : Type} : Except PyError α → Bool
  | .error (.keyError _) => true
  | _ => false

/-- Is the outcome a propagating `ValidationError`? -/
def isValidationErrorE {α : Type} : Except PyError α → Bool
  | .error (.validationError _) => true
  | _ => false

/-- An `Env` with every external table empty. -/
def emptyEnv : Env :=
  { licenses := [], subjectsVocab := [], institutionsVocab := [],
    categoryMap := [], projects := [], providers := [] }

/-- The `METADATA_FIELDS` rule for `subjects`. -/
def subjectsRule : Validations := { format := some "list", required := some true }

/-- The `METADATA_FIELDS` rule for `license`. -/
def licenseRule : Validations := { format := some "object", required := some true }

/-- The `METADATA_FIELDS` rule for `title`. -/
def titleRule : Validations := { format := some "string", required := some true }

example : dictGet METADATA_FIELDS "subjects" = some subjectsRule := by decide
example : dictGet METADATA_FIELDS "license" = some licenseRule := by decide
example : dictGet METADATA_FIELDS "title" = some titleRule := by decide

/-- A questionnaire rule of question type `choose` with multi-select format
and allowed options A and B, as `get_questions_validations` would produce
it. -/
def multiselectRule : Validations :=
  { required := some false, format := some "multiselect", qtype := some "choose",
    options := some ["A", "B"] }

/-- C1: the claim says a multi-select `choose` cell splits on `;`, trims,
logs one `invalid` per token outside `allowed_options`, accumulates the
valid tokens and returns them without raising.  The code instead executes
`parse_value.append(choice)` (source line 224) for every valid token, and
`parse_value` is an undefined name — `_validate` raises `NameError` as soon
as one token is valid.  Evaluated here: raw `"A; C"` against options
`["A", "B"]` raises `NameError` (first token `A` is valid, so nothing was
logged yet), while raw `"C; D"` (no valid token) takes only the logging
branch, logs `invalid` twice and returns the never-extended empty list. -/
theorem C1_multiselect_valid_choice_raises_nameError :
    FieldObj.parse emptyEnv (.response (RegistrationResponseField.mkAttrs multiselectRule "A; C")) =
      (.response (RegistrationResponseField.mkAttrs multiselectRule "A; C"), [],
       .error (.nameError "parse_value")) ∧
    FieldObj.parse emptyEnv (.response (RegistrationResponseField.mkAttrs multiselectRule "C; D")) =
      (.response { RegistrationResponseField.mkAttrs multiselectRule "C; D" with
                     parsedValue := some (.strList []) },
       [{ invalid := true }, { invalid := true }], .ok (.strList [])) := by
  constructor <;> rfl

/-- The license table for the C4 scenario: `MIT` with no required
properties, `CC-BY` and `CCBY` each declaring required properties. -/
def envC4 : Env :=
  { emptyEnv with
      licenses := [{ name := "MIT", properties := [] },
                   { name := "CC-BY", properties := ["year", "copyrightHolders"] },
                   { name := "CCBY", properties := ["year", "copyrightHolders"] }] }

/-- C4, counterexample: with a license named `CC-BY` that declares required
properties, parsing `"CC-BY; 2020; Jane Doe, John Roe"` does NOT yield
`{name: "CC-BY", required_field: ...}`: the `name` character class `[\w ]`
cannot match the hyphen, so the name group is `"CC"`, no license of that
name exists, and the cell logs one `invalid` error and resolves to
`Absent`. -/
theorem C4_ccby_example_fails_cex :
    FieldObj.parse envC4
        (field_instance_for "license" "CC-BY; 2020; Jane Doe, John Roe" licenseRule) =
      (field_instance_for "license" "CC-BY; 2020; Jane Doe, John Roe" licenseRule,
       [{ invalid := true }], .ok (.str "")) ∧
    (ParsedValue.str "" ≠
      ParsedValue.licenseFull "CC-BY" "2020" ["Jane Doe", "John Roe"]) := by
  constructor
  · rfl
  · decide

/-- C4, amended: the `MIT` half of the claim holds as stated.  For a license
with required properties the raw value can only parse when the license name
contains no characters outside `[\w ]`: against the hyphen-free license
`CCBY`, `"CCBY; 2020; Jane Doe, John Roe"` yields name `CCBY`, year
`" 2020"` — the regex keeps the leading space inside the `year` group — and
holders `["Jane Doe", "John Roe"]`; the raw value `"CC-BY; ..."` of the
claim instead logs one `invalid` error and resolves to `Absent` because the
name group stops at the hyphen. -/
theorem C4_license_examples_amended :
    FieldObj.parse envC4 (field_instance_for "license" "MIT" licenseRule) =
      (FieldObj.license { MetadataField.mkAttrs licenseRule "MIT" with
          parsedValue := some (.licenseSimple "MIT") },
       [], .ok (.licenseSimple "MIT")) ∧
    FieldObj.parse envC4
        (field_instance_for "license" "CCBY; 2020; Jane Doe, John Roe" licenseRule) =
      (FieldObj.license { MetadataField.mkAttrs licenseRule "CCBY; 2020; Jane Doe, John Roe" with
          parsedValue := some (.licenseFull "CCBY" " 2020" ["Jane Doe", "John Roe"]) },
       [], .ok (.licenseFull "CCBY" " 2020" ["Jane Doe", "John Roe"])) ∧
    FieldObj.parse envC4
        (field_instance_for "license" "CC-BY; 2020; Jane Doe, John Roe" licenseRule) =
      (field_instance_for "license" "CC-BY; 2020; Jane Doe, John Roe" licenseRule,
       [{ invalid := true }], .ok (.str "")) := by
  refine ⟨?_, ?_, ?_⟩ <;> rfl

/-- A provider `prov` offering one schema `s1` with a single question `q1`. -/
def envC5 : Env :=
  { emptyEnv with
      providers := [{ providerId := "prov",
                      schemas := [{ docId := "s1",
                                    pages := [[{ qid := "q1", validations := {} }]] }] }] }

/-- A single-header document whose schema-id line names schema `s1`. -/
def docC5 : CsvDoc := { fieldnames := ["title"], rows := [["s1"]] }

/-- A document whose schema-id line names the unknown schema `mystery`. -/
def docC5bad : CsvDoc := { fieldnames := ["title"], rows := [["mystery"]] }

/-- C5: the claim says an unknown provider id raises `NotFound` with detail
`Registration provider with id "<id>" was not found` before any row is
processed.  For an unknown schema the code does raise the analogous
`NotFound` (line 48), but for an unknown provider line 50 reads
`raise NotFound(detail=..).format(provider_id)`: `.format` is called on the
`NotFound` exception object, so an `AttributeError` propagates instead and
the detail placeholder is never filled.  In both cases construction aborts
before any row is built, so no per-cell `ErrorRecord` exists. -/
theorem C5_unknown_provider_raises_attributeError :
    Upload.init envC5 docC5 "unknown-prov" = .error (.attributeError "format") ∧
    Upload.init envC5 docC5bad "prov" =
      .error (.notFound "Schema with id \x22mystery\x22 was not found") := by
  constructor <;> rfl

/-- C10: if the first column of the first data line is empty, the
schema/provider lookup block is skipped (so no "schema not found" error can
arise) and construction fails when line 51 reads the never-assigned
`registration_schema` attribute: an `AttributeError` for
`registration_schema`. -/
theorem C10_empty_schema_id_attributeError (env : Env) (doc : CsvDoc) (pid : String)
    (row0 : List String) (rest : List (List String))
    (hrows : doc.rows = row0 :: rest) (hhead : row0.headD "" = "") :
    Upload.init env doc pid = .error (.attributeError "registration_schema") := by
  unfold Upload.init
  rw [hrows]
  have hh : row0.head?.getD "" = "" := by cases row0 <;> simp_all [List.headD]
  simp [hh]

/-- C10 witness: the concrete single-column document whose schema-id cell is
empty. -/
theorem C10_empty_schema_id_attributeError_witness :
    Upload.init emptyEnv { fieldnames := ["title"], rows := [[""]] } "prov" =
      .error (.attributeError "registration_schema") :=
  C10_empty_schema_id_attributeError emptyEnv
    { fieldnames := ["title"], rows := [[""]] } "prov" [""] [] rfl rfl

/-- Replacing an already-`none` memo slot with `none` is the identity on
`MetadataAttrs`. -/
theorem withNone_eq_meta (a : MetadataAttrs) (h : a.parsedValue = none) :
    ({ a with parsedValue := none } : MetadataAttrs) = a := by
  cases a; simp_all

/-- Replacing an already-`none` memo slot with `none` is the identity on
`ResponseAttrs`. -/
theorem withNone_eq_resp (r : ResponseAttrs) (h : r.parsedValue = none) :
    ({ r with parsedValue := none } : ResponseAttrs) = r := by
  cases r; simp_all

/-- `MetadataField._validate` either leaves the attrs untouched or fills the
memo slot. -/
theorem metadataField_validate_state (a : MetadataAttrs) (h0 : a.parsedValue = none) :
    (MetadataField.validateAttrs a).1 = a ∨
      (MetadataField.validateAttrs a).1.parsedValue.isSome := by
  unfold MetadataField.validateAttrs
  split_ifs
  · left; rfl
  · right; simp
  · right; simp
  · left; exact withNone_eq_meta a h0

/-- `ContributorField._validate` either leaves the attrs untouched or fills
the memo slot. -/
theorem contributorField_validate_state (a : MetadataAttrs) (h0 : a.parsedValue = none) :
    (ContributorField.validateAttrs a).1 = a ∨
      (ContributorField.validateAttrs a).1.parsedValue.isSome := by
  unfold ContributorField.validateAttrs
  split_ifs
  · left; rfl
  · right; simp

/-- `LicenseField._validate` either leaves the attrs untouched or fills the
memo slot. -/
theorem licenseField_validate_state (env : Env) (a : MetadataAttrs)
    (h0 : a.parsedValue = none) :
    (LicenseField.validateAttrs env a).1 = a ∨
      (LicenseField.validateAttrs env a).1.parsedValue.isSome := by
  unfold LicenseField.validateAttrs
  split_ifs with h1
  · left; rfl
  · rcases hnm : noRequiredFieldsMatch a.value with _ | nm <;> simp only [hnm]
    · left; trivial
    · rcases hf : env.licenses.find? (fun l => pyLower l.name = pyLower nm) with _ | lic <;>
        simp only [hf]
      · left; trivial
      · split_ifs with h2
        · rcases hwm : withRequiredFieldsMatch a.value with _ | m <;> simp only [hwm]
          · left; exact withNone_eq_meta a h0
          · right; simp
        · right; simp

/-- `CategoryField._validate` either leaves the attrs untouched or fills the
memo slot. -/
theorem categoryField_validate_state (env : Env) (a : MetadataAttrs)
    (h0 : a.parsedValue = none) :
    (CategoryField.validateAttrs env a).1 = a ∨
      (CategoryField.validateAttrs env a).1.parsedValue.isSome := by
  unfold CategoryField.validateAttrs
  rcases hf : env.categoryMap.find? (fun p => p.1 = a.value) with _ | p <;> simp only [hf]
  · left; trivial
  · right; simp

/-- `SubjectsField._validate` either leaves the attrs untouched or fills the
memo slot. -/
theorem subjectsField_validate_state (env : Env) (a : MetadataAttrs)
    (h0 : a.parsedValue = none) :
    (SubjectsField.validateAttrs env a).1 = a ∨
      (SubjectsField.validateAttrs env a).1.parsedValue.isSome := by
  unfold SubjectsField.validateAttrs
  dsimp only
  split_ifs
  · left; rfl
  · right; simp

/-- `InstitutionsField._validate` either leaves the attrs untouched or fills
the memo slot. -/
theorem institutionsField_validate_state (env : Env) (a : MetadataAttrs)
    (h0 : a.parsedValue = none) :
    (InstitutionsField.validateAttrs env a).1 = a ∨
      (InstitutionsField.validateAttrs env a).1.parsedValue.isSome := by
  unfold InstitutionsField.validateAttrs
  dsimp only
  split_ifs
  · left; rfl
  · right; simp

/-- `ProjectIDField._validate` either leaves the attrs untouched or fills
the memo slot. -/
theorem projectIDField_validate_state (env : Env) (a : MetadataAttrs)
    (h0 : a.parsedValue = none) :
    (ProjectIDField.validateAttrs env a).1 = a ∨
      (ProjectIDField.validateAttrs env a).1.parsedValue.isSome := by
  unfold ProjectIDField.validateAttrs
  split_ifs
  · right; simp
  · left; rfl

/-- `RegistrationResponseField._validate` either leaves the attrs untouched
or fills the memo slot. -/
theorem registrationResponseField_validate_state (a : ResponseAttrs)
    (h0 : a.parsedValue = none) :
    (RegistrationResponseField.validateAttrs a).1 = a ∨
      (RegistrationResponseField.validateAttrs a).1.parsedValue.isSome := by
  unfold RegistrationResponseField.validateAttrs
  split_ifs
  · left; rfl
  · right; simp
  · right; simp
  · left; exact withNone_eq_resp a h0
  · rcases hml : multiselectChoicesLoop a.options ((pySplitSemi a.value).map pyStrip) []
      with ⟨logs1, r1⟩
    rcases r1 with e | u
    · simp only [hml]; left; trivial
    · cases u; simp only [hml]; right; simp
  · left; exact withNone_eq_resp a h0

/-- `_validate`, dispatched: when the memo slot was empty before the call
and is still empty after it, the whole field state is unchanged. -/
theorem FieldObj.validate_absent_fix (env : Env) (f : FieldObj)
    (h0 : FieldObj.parsedValueOf f = none)
    (h : FieldObj.parsedValueOf (FieldObj.validateField env f).1 = none) :
    (FieldObj.validateField env f).1 = f := by
  cases f with
  | metadataGeneric a =>
    simp only [FieldObj.parsedValueOf] at h0
    simp only [FieldObj.validateField, FieldObj.parsedValueOf] at h ⊢
    rcases metadataField_validate_state a h0 with heq | hsome
    · rw [heq]
    · rw [h] at hsome; simp at hsome
  | contributor a =>
    simp only [FieldObj.parsedValueOf] at h0
    simp only [FieldObj.validateField, FieldObj.parsedValueOf] at h ⊢
    rcases contributorField_validate_state a h0 with heq | hsome
    · rw [heq]
    · rw [h] at hsome; simp at hsome
  | license a =>
    simp only [FieldObj.parsedValueOf] at h0
    simp only [FieldObj.validateField, FieldObj.parsedValueOf] at h ⊢
    rcases licenseField_validate_state env a h0 with heq | hsome
    · rw [heq]
    · rw [h] at hsome; simp at hsome
  | category a =>
    simp only [FieldObj.parsedValueOf] at h0
    simp only [FieldObj.validateField, FieldObj.parsedValueOf] at h ⊢
    rcases categoryField_validate_state env a h0 with heq | hsome
    · rw [heq]
    · rw [h] at hsome; simp at hsome
  | subjects a =>
    simp only [FieldObj.parsedValueOf] at h0
    simp only [FieldObj.validateField, FieldObj.parsedValueOf] at h ⊢
    rcases subjectsField_validate_state env a h0 with heq | hsome
    · rw [heq]
    · rw [h] at hsome; simp at hsome
  | institutions a =>
    simp only [FieldObj.parsedValueOf] at h0
    simp only [FieldObj.validateField, FieldObj.parsedValueOf] at h ⊢
    rcases institutionsField_validate_state env a h0 with heq | hsome
    · rw [heq]
    · rw [h] at hsome; simp at hsome
  | projectID a =>
    simp only [FieldObj.parsedValueOf] at h0
    simp only [FieldObj.validateField, FieldObj.parsedValueOf] at h ⊢
    rcases projectIDField_validate_state env a h0 with heq | hsome
    · rw [heq]
    · rw [h] at hsome; simp at hsome
  | response a =>
    simp only [FieldObj.parsedValueOf] at h0
    simp only [FieldObj.validateField, FieldObj.parsedValueOf] at h ⊢
    rcases registrationResponseField_validate_state a h0 with heq | hsome
    · rw [heq]
    · rw [h] at hsome; simp at hsome

/-- C2, amended: a second `parse` on the same cell returns a result
identical to the first call's; when the first call produced a parsed value
(the `_parsed_value` memo is non-`None`), `_validate` is not re-run and
nothing is re-logged, but when the first call resolved to `Absent` (memo
still `None`) the guard `if self._parsed_value is None` re-runs `_validate`,
which appends the same error entries again. -/
theorem C2_parse_memoized_only_for_values (env : Env) (f f2 : FieldObj)
    (logs : List LogEntry) (v : ParsedValue)
    (h : FieldObj.parse env f = (f2, logs, .ok v)) :
    FieldObj.parse env f2 =
      (f2, if (FieldObj.parsedValueOf f2).isSome then [] else logs, .ok v) := by
  unfold FieldObj.parse at h
  rcases hpv : FieldObj.parsedValueOf f with _ | v0
  · rw [hpv] at h
    rcases hvf : FieldObj.validateField env f with ⟨f1, logs1, r1⟩
    rw [hvf] at h
    rcases r1 with e | u
    · simp at h
    · cases u
      simp only [Prod.mk.injEq, Except.ok.injEq] at h
      obtain ⟨h1, h2, h3⟩ := h
      rcases hpv2 : FieldObj.parsedValueOf f2 with _ | v2
      · have hfix : f1 = f := by
          have hlem := FieldObj.validate_absent_fix env f hpv
          rw [hvf] at hlem
          exact hlem (by rw [h1]; exact hpv2)
        have hff : f2 = f := by rw [← h1, hfix]
        unfold FieldObj.parse
        simp only [hff, hpv, hvf, hpv2, Option.isSome_none, Bool.false_eq_true, if_false]
        rw [h3, h2, hfix]
      · have hv2 : v2 = v := by rw [← h3, h1, hpv2]; rfl
        unfold FieldObj.parse
        simp [hpv2, hv2, h1]
  · rw [hpv] at h
    simp only [Prod.mk.injEq, Except.ok.injEq] at h
    obtain ⟨h1, h2, h3⟩ := h
    have hpv2 : FieldObj.parsedValueOf f2 = some v0 := by rw [← h1]; exact hpv
    unfold FieldObj.parse
    simp [hpv2, h3, h2]

/-- The required `title` metadata cell with an empty raw value. -/
def titleEmptyField : FieldObj := field_instance_for "title" "" titleRule

/-- C2, counterexample: for the required `title` cell with raw value `""`,
the first `parse` resolves to `Absent` (returns `''`) and logs one `missing`
entry — and because `_parsed_value` is still `None`, the second `parse`
re-runs `_validate` and logs the same `missing` entry again, appending a
duplicate `ErrorRecord`, contrary to the claim. -/
theorem C2_parse_twice_relogs_cex :
    FieldObj.parse emptyEnv titleEmptyField =
      (titleEmptyField, [{ missing := true }], .ok (.str "")) ∧
    FieldObj.parse emptyEnv (FieldObj.parse emptyEnv titleEmptyField).1 =
      (titleEmptyField, [{ missing := true }], .ok (.str "")) ∧
    ([({ missing := true } : LogEntry)] ≠ ([] : List LogEntry)) := by
  refine ⟨rfl, rfl, by decide⟩

/-- C2 witness: the amended theorem applied to the concrete required `title`
cell with empty raw value. -/
theorem C2_parse_memoized_only_for_values_witness :
    FieldObj.parse emptyEnv titleEmptyField =
      (titleEmptyField,
       if (FieldObj.parsedValueOf titleEmptyField).isSome then []
       else [{ missing := true }],
       .ok (.str "")) :=
  C2_parse_memoized_only_for_values emptyEnv titleEmptyField titleEmptyField
    [{ missing := true }] (.str "") (by rfl)

/-- A vocabulary containing only the subject `Psychology`. -/
def envC3 : Env := { emptyEnv with subjectsVocab := ["Psychology"] }

/-- C3, counterexample: the claim covers "every cell whose rule marks the
field required", in particular the required `subjects` metadata field — but
`SubjectsField._validate` overrides the base validator without any
required/missing check.  For the required `subjects` cell with raw value
`""` the code splits `""` into `[""]`, finds `""` absent from the
vocabulary, and logs one `invalid` (missing=false) error — not the claimed
single `missing=true, invalid=false` record. -/
theorem C3_required_subjects_empty_logs_invalid_cex :
    FieldObj.parse envC3 (field_instance_for "subjects" "" subjectsRule) =
      (field_instance_for "subjects" "" subjectsRule,
       [{ invalid := true }], .ok (.str "")) ∧
    (({ invalid := true } : LogEntry) ≠ { missing := true }) := by
  refine ⟨rfl, by decide⟩

/-- C3, amended: the claim holds for the validators that implement the
required/missing guard — the generic metadata, contributor, license and
questionnaire-response validators: a required rule plus an empty or
whitespace-only raw value (`pyStrip raw = ""`) yields `Absent` (the `''`
sentinel), exactly one `missing=true, invalid=false` entry, and an unchanged
field state (no further parsing, no lookup).  The `subjects`, `affiliated
institutions`, `category` and `project guid` validators skip that guard; of
those only `subjects` is marked required, and it logs `invalid` instead
(see the counterexample). -/
theorem C3_required_empty_single_missing_amended (env : Env) (raw : String)
    (v : Validations) (hraw : pyStrip raw = "") (hreq : v.required = some true) :
    FieldObj.parse env (.metadataGeneric (MetadataField.mkAttrs v raw)) =
      (.metadataGeneric (MetadataField.mkAttrs v raw),
       [{ missing := true, invalid := false }], .ok (.str "")) ∧
    FieldObj.parse env (.contributor (MetadataField.mkAttrs v raw)) =
      (.contributor (MetadataField.mkAttrs v raw),
       [{ missing := true, invalid := false }], .ok (.str "")) ∧
    FieldObj.parse env (.license (MetadataField.mkAttrs v raw)) =
      (.license (MetadataField.mkAttrs v raw),
       [{ missing := true, invalid := false }], .ok (.str "")) ∧
    FieldObj.parse env (.response (RegistrationResponseField.mkAttrs v raw)) =
      (.response (RegistrationResponseField.mkAttrs v raw),
       [{ missing := true, invalid := false }], .ok (.str "")) := by
  refine ⟨?_, ?_, ?_, ?_⟩ <;>
    simp [FieldObj.parse, FieldObj.parsedValueOf, FieldObj.validateField,
      MetadataField.validateAttrs, ContributorField.validateAttrs,
      LicenseField.validateAttrs, RegistrationResponseField.validateAttrs,
      MetadataField.mkAttrs, RegistrationResponseField.mkAttrs, hraw, hreq]

/-- C3 witness: the amended theorem applied to the whitespace-only raw value
`" "` under the required `title` rule. -/
theorem C3_required_empty_single_missing_witness :
    FieldObj.parse emptyEnv (.metadataGeneric (MetadataField.mkAttrs titleRule " ")) =
      (.metadataGeneric (MetadataField.mkAttrs titleRule " "),
       [{ missing := true, invalid := false }], .ok (.str "")) ∧
    FieldObj.parse emptyEnv (.contributor (MetadataField.mkAttrs titleRule " ")) =
      (.contributor (MetadataField.mkAttrs titleRule " "),
       [{ missing := true, invalid := false }], .ok (.str "")) ∧
    FieldObj.parse emptyEnv (.license (MetadataField.mkAttrs titleRule " ")) =
      (.license (MetadataField.mkAttrs titleRule " "),
       [{ missing := true, invalid := false }], .ok (.str "")) ∧
    FieldObj.parse emptyEnv (.response (RegistrationResponseField.mkAttrs titleRule " ")) =
      (.response (RegistrationResponseField.mkAttrs titleRule " "),
       [{ missing := true, invalid := false }], .ok (.str "")) :=
  C3_required_empty_single_missing_amended emptyEnv " " titleRule (by decide) (by decide)

/-- The unmatched-token filter of `SubjectsField`/`InstitutionsField` is
empty exactly when every token is in the vocabulary: for `t ∈ tokens`,
membership in `vocab.filter (· ∈ tokens)` is just membership in `vocab`. -/
theorem unmatched_nil_iff (vocab tokens : List String) :
    tokens.filter (fun t => t ∉ vocab.filter (fun s => s ∈ tokens)) = [] ↔
      ∀ t ∈ tokens, t ∈ vocab := by
  rw [List.filter_eq_nil_iff]
  constructor
  · intro h t ht
    have h2 := h t ht
    simp only [decide_eq_true_eq, not_not] at h2
    exact (List.mem_filter.mp h2).1
  · intro h t ht
    simp only [decide_eq_true_eq, not_not]
    exact List.mem_filter.mpr ⟨h t ht, by simpa using ht⟩

/-- C7: for a `subjects` or `affiliated institutions` cell, if any
`;`-separated, stripped token is absent from the external vocabulary the
whole cell fails — exactly one `invalid` entry is logged and the cell
resolves to `Absent` (no partial list, field state unchanged); if every
token matches, the cell resolves to the database-ordered matched set with no
error logged. -/
theorem C7_subjects_institutions_whole_cell (env : Env) (a : MetadataAttrs)
    (hp : a.parsedValue = none) (hv : a.value ≠ "") :
    ((∃ t ∈ (pySplitSemi a.value).map pyStrip, t ∉ env.subjectsVocab) →
      FieldObj.parse env (.subjects a) =
        (.subjects a, [{ invalid := true }], .ok (.str ""))) ∧
    ((∀ t ∈ (pySplitSemi a.value).map pyStrip, t ∈ env.subjectsVocab) →
      FieldObj.parse env (.subjects a) =
        (.subjects { a with parsedValue := some (.strList (env.subjectsVocab.filter
            (fun s => s ∈ (pySplitSemi a.value).map pyStrip))) },
         [],
         .ok (.strList (env.subjectsVocab.filter
            (fun s => s ∈ (pySplitSemi a.value).map pyStrip))))) ∧
    ((∃ t ∈ (pySplitSemi a.value).map pyStrip, t ∉ env.institutionsVocab) →
      FieldObj.parse env (.institutions a) =
        (.institutions a, [{ invalid := true }], .ok (.str ""))) ∧
    ((∀ t ∈ (pySplitSemi a.value).map pyStrip, t ∈ env.institutionsVocab) →
      FieldObj.parse env (.institutions a) =
        (.institutions { a with parsedValue := some (.strList (env.institutionsVocab.filter
            (fun s => s ∈ (pySplitSemi a.value).map pyStrip))) },
         [],
         .ok (.strList (env.institutionsVocab.filter
            (fun s => s ∈ (pySplitSemi a.value).map pyStrip))))) := by
  refine ⟨?_, ?_, ?_, ?_⟩
  · rintro ⟨t, ht, htv⟩
    have hne : ((pySplitSemi a.value).map pyStrip).filter
        (fun s => s ∉ env.subjectsVocab.filter
          (fun s => s ∈ (pySplitSemi a.value).map pyStrip)) ≠ [] := by
      intro hnil
      exact htv ((unmatched_nil_iff env.subjectsVocab
        ((pySplitSemi a.value).map pyStrip)).mp hnil t ht)
    have hlen : (((pySplitSemi a.value).map pyStrip).filter
        (fun s => s ∉ env.subjectsVocab.filter
          (fun s => s ∈ (pySplitSemi a.value).map pyStrip))).length ≠ 0 := by
      simpa [List.length_eq_zero] using hne
    simp only [FieldObj.parse, FieldObj.parsedValueOf, FieldObj.validateField,
      SubjectsField.validateAttrs, hp]
    rw [if_pos hlen]
    simp [FieldObj.parsedValueOf, hp]
  · intro hall
    have hnil := (unmatched_nil_iff env.subjectsVocab
      ((pySplitSemi a.value).map pyStrip)).mpr hall
    have hlen0 : ¬((((pySplitSemi a.value).map pyStrip).filter
        (fun s => s ∉ env.subjectsVocab.filter
          (fun s => s ∈ (pySplitSemi a.value).map pyStrip))).length ≠ 0) := by
      rw [hnil]
      simp
    simp only [FieldObj.parse, FieldObj.parsedValueOf, FieldObj.validateField,
      SubjectsField.validateAttrs, hp]
    rw [if_neg hlen0]
    simp [FieldObj.parsedValueOf]
  · rintro ⟨t, ht, htv⟩
    have hne : ((pySplitSemi a.value).map pyStrip).filter
        (fun s => s ∉ env.institutionsVocab.filter
          (fun s => s ∈ (pySplitSemi a.value).map pyStrip)) ≠ [] := by
      intro hnil
      exact htv ((unmatched_nil_iff env.institutionsVocab
        ((pySplitSemi a.value).map pyStrip)).mp hnil t ht)
    have hlen : (((pySplitSemi a.value).map pyStrip).filter
        (fun s => s ∉ env.institutionsVocab.filter
          (fun s => s ∈ (pySplitSemi a.value).map pyStrip))).length ≠ 0 := by
      simpa [List.length_eq_zero] using hne
    simp only [FieldObj.parse, FieldObj.parsedValueOf, FieldObj.validateField,
      InstitutionsField.validateAttrs, hp]
    rw [if_pos hlen]
    simp [FieldObj.parsedValueOf, hp]
  · intro hall
    have hnil := (unmatched_nil_iff env.institutionsVocab
      ((pySplitSemi a.value).map pyStrip)).mpr hall
    have hlen0 : ¬((((pySplitSemi a.value).map pyStrip).filter
        (fun s => s ∉ env.institutionsVocab.filter
          (fun s => s ∈ (pySplitSemi a.value).map pyStrip))).length ≠ 0) := by
      rw [hnil]
      simp
    simp only [FieldObj.parse, FieldObj.parsedValueOf, FieldObj.validateField,
      InstitutionsField.validateAttrs, hp]
    rw [if_neg hlen0]
    simp [FieldObj.parsedValueOf]

/-- Subject vocabulary `["Psychology"]`, institution vocabulary `["MIT"]`. -/
def envC7 : Env :=
  { emptyEnv with subjectsVocab := ["Psychology"], institutionsVocab := ["MIT"] }

/-- The `subjects` cell with raw value `"Psychology; NotARealSubject"`. -/
def aC7 : MetadataAttrs := MetadataField.mkAttrs subjectsRule "Psychology; NotARealSubject"

/-- C7 witness: `"Psychology; NotARealSubject"` against the vocabulary
containing only `Psychology` logs exactly one `invalid` entry for the cell
and resolves to `Absent`. -/
theorem C7_subjects_institutions_whole_cell_witness :
    FieldObj.parse envC7 (.subjects aC7) =
      (.subjects aC7, [{ invalid := true }], .ok (.str "")) :=
  (C7_subjects_institutions_whole_cell envC7 aC7 (by decide) (by decide)).1
    ⟨"NotARealSubject", by decide, by decide⟩

/-- C8: when the license-name prefix of the raw value (the maximal `[\w ]`
run, which is what `no_required_fields_regex` captures) resolves
case-insensitively to an existing license that declares required properties,
but the raw value does not match the extended grammar
`name; four-digit year; holder list`, the cell produces no value — `parse`
returns the `''` sentinel, the field state is unchanged — and no error entry
is logged. -/
theorem C8_license_grammar_mismatch_silent (env : Env) (a : MetadataAttrs) (nm : String)
    (lic : NodeLicense)
    (hp : a.parsedValue = none)
    (hnm : noRequiredFieldsMatch a.value = some nm)
    (hfind : env.licenses.find? (fun l => pyLower l.name = pyLower nm) = some lic)
    (hprops : lic.properties ≠ [])
    (hgram : withRequiredFieldsMatch a.value = none) :
    FieldObj.parse env (.license a) = (.license a, [], .ok (.str "")) := by
  have hvne : ¬(a.required = true ∧ a.value = "") := by
    rintro ⟨_, hv⟩
    rw [hv] at hnm
    simp [noRequiredFieldsMatch] at hnm
  simp only [FieldObj.parse, FieldObj.parsedValueOf, FieldObj.validateField,
    LicenseField.validateAttrs, hp]
  rw [if_neg hvne]
  simp only [hnm, hfind]
  rw [if_pos hprops]
  simp only [hgram]
  simp [FieldObj.parsedValueOf, withNone_eq_meta a hp, hp]

/-- One license `CCBY` that declares required properties. -/
def envC8 : Env :=
  { emptyEnv with licenses := [{ name := "CCBY", properties := ["year", "copyrightHolders"] }] }

/-- A license cell whose raw value starts with the `CCBY` license name but
lacks the `; year; holders` tail. -/
def aC8 : MetadataAttrs := MetadataField.mkAttrs licenseRule "CCBY; 2020"

/-- C8 witness: `"CCBY; 2020"` against the properties-requiring license
`CCBY` resolves to `Absent` with no error logged. -/
theorem C8_license_grammar_mismatch_silent_witness :
    FieldObj.parse envC8 (.license aC8) = (.license aC8, [], .ok (.str "")) :=
  C8_license_grammar_mismatch_silent envC8 aC8 "CCBY"
    { name := "CCBY", properties := ["year", "copyrightHolders"] }
    (by decide) (by decide) (by decide) (by decide) (by decide)

/-- Constructing a `BulkRegistrationUpload` never logs an error: the
`errors` list of a successfully constructed upload is empty. -/
theorem Upload.init_errors_nil (env : Env) (doc : CsvDoc) (pid : String) (u : Upload)
    (h : Upload.init env doc pid = .ok u) : u.errors = [] := by
  unfold Upload.init at h
  split at h
  · simp at h
  · dsimp only at h
    split at h
    · simp at h
    · split at h
      · simp at h
      · simp only [Except.ok.injEq] at h
        rw [← h]

/-- C6: for an upload whose document lacks at least one expected header (a
metadata field name or questionnaire qid/nested qid), `validate()` raises
the fatal whole-document `ValidationError` in `validate_csv_header_list`
before any row or cell is validated: the upload state — in particular its
empty error list — is returned unchanged, so no per-cell `ErrorRecord` is
ever produced for such a document. -/
theorem C6_missing_header_fatal_before_cells (env : Env) (doc : CsvDoc) (pid : String)
    (u : Upload) (hinit : Upload.init env doc pid = .ok u)
    (hdr : String) (hmem : hdr ∈ u.validations.map Prod.fst) (hnot : hdr ∉ u.headers) :
    u.errors = [] ∧ (Upload.validate env u).1 = u ∧
      isValidationErrorE (Upload.validate env u).2 = true := by
  have hmem2 : hdr ∈ (u.validations.map Prod.fst).filter (fun h => h ∉ u.headers) :=
    List.mem_filter.mpr ⟨hmem, by simpa using hnot⟩
  have hdiff : ((u.validations.map Prod.fst).filter (fun h => h ∉ u.headers)).length ≠ 0 := by
    simpa [List.length_eq_zero] using List.ne_nil_of_mem hmem2
  have hv : validate_csv_header_list u =
      .error (.validationError ("Invalid csv headers: " ++ String.intercalate ","
        ((u.validations.map Prod.fst).filter (fun h => h ∉ u.headers)))) := by
    unfold validate_csv_header_list
    dsimp only
    rw [if_pos hdiff]
  refine ⟨Upload.init_errors_nil env doc pid u hinit, ?_, ?_⟩
  · unfold Upload.validate
    rw [hv]
  · unfold Upload.validate
    rw [hv]
    rfl

/-- The (successfully constructed) upload of the C5 environment and
document: schema `s1` resolves, but the document only carries the `title`
header while the expected headers also include `q1` and the other metadata
fields. -/
def uC6 : Upload :=
  match Upload.init envC5 docC5 "prov" with
  | .ok u => u
  | .error _ =>
    { headers := [], schemaId := "", providerId := "",
      registrationSchema := { docId := "", pages := [] }, validations := [],
      errors := [], rows := [] }

/-- C6 witness: the single-header document against schema `s1` — the
expected header `q1` is missing, so `validate` fails with the
whole-document error, leaving the error list empty. -/
theorem C6_missing_header_fatal_before_cells_witness :
    uC6.errors = [] ∧ (Upload.validate envC5 uC6).1 = uC6 ∧
      isValidationErrorE (Upload.validate envC5 uC6).2 = true :=
  C6_missing_header_fatal_before_cells envC5 docC5 "prov" uC6 rfl "q1"
    (by decide) (by decide)

/-- An element of the first list of a length-aligned zip appears as a first
component of the zip. -/
theorem mem_zip_left {α β : Type} (l1 : List α) (l2 : List β) (a : α)
    (hlen : l1.length = l2.length) (ha : a ∈ l1) : ∃ b, (a, b) ∈ l1.zip l2 := by
  induction l1 generalizing l2 with
  | nil => simp at ha
  | cons x xs ih =>
    rcases l2 with _ | ⟨y, ys⟩
    · simp at hlen
    · rcases List.mem_cons.mp ha with rfl | hmem
      · exact ⟨y, List.mem_cons_self _ _⟩
      · rcases ih ys (by simpa using hlen) hmem with ⟨b, hb⟩
        exact ⟨b, List.mem_cons_of_mem _ hb⟩

/-- If some header among the row's items has no entry in the merged
validations, the cell-building comprehension aborts with a `KeyError`. -/
theorem buildCells_keyError (vals : List (String × Validations)) :
    ∀ (pairs : List (String × String)) (i : Nat),
      (∃ p ∈ pairs, dictGet vals (pyLower p.1) = none) →
      isKeyErrorE (buildCells vals pairs i) = true := by
  intro pairs
  induction pairs with
  | nil =>
    intro i h
    rcases h with ⟨p, hp, _⟩
    simp at hp
  | cons q rest ih =>
    obtain ⟨qh, qv⟩ := q
    intro i h
    unfold buildCells
    rcases hq : dictGet vals (pyLower qh) with _ | v
    · simp [isKeyErrorE]
    · simp only []
      rcases h with ⟨p, hp, hnone⟩
      rcases List.mem_cons.mp hp with rfl | hmem
      · rw [hq] at hnone; simp at hnone
      · have hrest := ih (i + 1) ⟨p, hmem, hnone⟩
        rcases hb : buildCells vals rest (i + 1) with e | cells
        · rw [hb] at hrest
          simpa [isKeyErrorE] using hrest
        · rw [hb] at hrest
          simp [isKeyErrorE] at hrest

/-- A `KeyError` while building the first row's cells propagates out of the
row-building loop. -/
theorem buildRows_keyError (vals : List (String × Validations))
    (fieldnames : List String) (r1 : List String) (rest : List (List String)) (n : Nat)
    (h : isKeyErrorE (buildCells vals (fieldnames.zip r1) 0) = true) :
    isKeyErrorE (buildRows vals fieldnames (r1 :: rest) n) = true := by
  unfold buildRows
  rcases hb : buildCells vals (fieldnames.zip r1) 0 with e | cells
  · rw [hb] at h
    cases e <;> simp_all [isKeyErrorE]
  · rw [hb] at h
    simp [isKeyErrorE] at h

/-- C9: (a) a document carrying a header that is neither a metadata field
name nor a qid/nested qid of the resolved schema makes `__init__` fail with
an unhandled `KeyError` while the `Row` objects look the header up in the
merged validations — this happens during construction, before `validate()`
(and hence the header-set check) can ever run; (b) `validate_csv_header_list`
computes only `expected - actual`, so a document containing every expected
header passes the check no matter how many unexpected extra headers it
carries. -/
theorem C9_unknown_header_keyError_and_one_sided_check :
    (∀ (env : Env) (doc : CsvDoc) (pid sid : String) (schema : RegistrationSchemaDoc)
        (row0 r1 : List String) (dataRows : List (List String)),
      doc.rows = row0 :: r1 :: dataRows →
      row0.headD "" = sid → sid ≠ "" →
      lookupSchema env pid sid = .found schema →
      r1.length = doc.fieldnames.length →
      (∃ hdr ∈ doc.fieldnames, dictGet (mergedValidations schema) (pyLower hdr) = none) →
      isKeyErrorE (Upload.init env doc pid) = true) ∧
    (∀ u : Upload, (∀ e ∈ u.validations.map Prod.fst, e ∈ u.headers) →
      validate_csv_header_list u = .ok ()) := by
  constructor
  · intro env doc pid sid schema row0 r1 dataRows hrows hsid hne hlook hlen hex
    obtain ⟨hdr, hhdr, hnone⟩ := hex
    obtain ⟨bv, hb⟩ := mem_zip_left doc.fieldnames r1 hdr hlen.symm hhdr
    have hcells := buildCells_keyError (mergedValidations schema)
      (doc.fieldnames.zip r1) 0 ⟨(hdr, bv), hb, hnone⟩
    have hrowsKE := buildRows_keyError (mergedValidations schema)
      doc.fieldnames r1 dataRows 3 hcells
    unfold Upload.init
    rw [hrows]
    dsimp only
    rw [hsid, if_pos hne, hlook]
    dsimp only
    rcases hbr : buildRows (mergedValidations schema) doc.fieldnames (r1 :: dataRows) 3
      with e | rows
    · rw [hbr] at hrowsKE
      cases e <;> simp_all [isKeyErrorE]
    · rw [hbr] at hrowsKE
      simp [isKeyErrorE] at hrowsKE
  · intro u hall
    have hnil : (u.validations.map Prod.fst).filter (fun h => h ∉ u.headers) = [] := by
      rw [List.filter_eq_nil_iff]
      intro x hx
      simp [hall x hx]
    unfold validate_csv_header_list
    dsimp only
    rw [hnil]
    simp

/-- A two-header document: the second header `mystery header` is neither a
metadata field name nor a qid of schema `s1`. -/
def docC9 : CsvDoc :=
  { fieldnames := ["title", "mystery header"], rows := [["s1", ""], ["x", "y"]] }

/-- An upload state carrying every expected header plus an unexpected
extra one. -/
def uC9b : Upload :=
  { headers := ["title", "extra"], schemaId := "", providerId := "",
    registrationSchema := { docId := "", pages := [] },
    validations := [("title", titleRule)], errors := [], rows := [] }

/-- C9 witness: the concrete document with the unknown header `mystery
header` aborts construction with a `KeyError`, and the header check accepts
an upload whose headers strictly contain the expected set. -/
theorem C9_unknown_header_keyError_witness :
    isKeyErrorE (Upload.init envC5 docC9 "prov") = true ∧
    validate_csv_header_list uC9b = .ok () :=
  ⟨C9_unknown_header_keyError_and_one_sided_check.1 envC5 docC9 "prov" "s1"
      { docId := "s1", pages := [[{ qid := "q1", validations := {} }]] }
      ["s1", ""] ["x", "y"] [] rfl rfl (by decide) (by decide) rfl
      ⟨"mystery header", by decide, by decide⟩,
   C9_unknown_header_keyError_and_one_sided_check.2 uC9b (by decide)⟩
